import Mathlib

/-!
Verification of `scripts/check_rubrik_backups.py` (Rubrik CDM backup checker).

The script is shallowly embedded: each Python function that the claims
touch becomes an executable Lean definition over explicit data types that
model the JSON dictionaries the script manipulates.  External effects
(HTTP responses, the parsed GraphQL payloads, the file system, environment
variables) are inputs to the Lean functions.  Python truthiness, `str.strip`,
`str.lower` (ASCII range, the only one relevant to host names), `in`
substring tests and `dict.get` defaults are modelled explicitly.
-/

namespace RubrikCheck

/-- Python truthiness of an optional string: `None` and `""` are falsy. -/
def pyTruthyOptStr : Option String → Bool
  | none => false
  | some s => s ≠ ""

/-- ASCII model of Python `str.lower` on a single character. -/
def pyLowerChar (c : Char) : Char :=
  if 65 ≤ c.toNat ∧ c.toNat ≤ 90 then Char.ofNat (c.toNat + 32) else c

/-- ASCII model of Python `str.lower`. -/
def pyLower (s : String) : String :=
  String.mk (s.toList.map pyLowerChar)

/-- The whitespace recognised by Python `str.strip` (ASCII range). -/
def pyIsSpace (c : Char) : Bool :=
  c = ' ' || c = '\t' || c = '\n' || c = '\x0d' || c = '\x0b' || c = '\x0c'

/-- Python `str.strip` on a character list: drop whitespace at both ends. -/
def pyStripList (l : List Char) : List Char :=
  ((l.dropWhile pyIsSpace).reverse.dropWhile pyIsSpace).reverse

/-- Python `str.strip`. -/
def pyStrip (s : String) : String :=
  String.mk (pyStripList s.toList)

/-- `l₁.isPrefixOf l₂`-style check, kept local and executable. -/
def headAgrees : List Char → List Char → Bool
  | [], _ => true
  | _ :: _, [] => false
  | a :: as, b :: bs => a = b && headAgrees as bs

/-- Executable substring containment on character lists (Python `in`). -/
def isSubL (s : List Char) : List Char → Bool
  | [] => headAgrees s []
  | c :: t => headAgrees s (c :: t) || isSubL s t

/-- Python `needle in haystack` for strings. -/
def pyIn (needle haystack : String) : Bool :=
  isSubL needle.toList haystack.toList

/-- Python `old or new` on optional strings (`None`/`""` falsy). -/
def pyOrOpt (a b : Option String) : Option String :=
  if pyTruthyOptStr a then a else b

/-- Python `value or default` where `default` is a plain string. -/
def pyOrDefault (a : Option String) (dflt : String) : String :=
  match a with
  | some s => if s = "" then dflt else s
  | none => dflt

/-- `s.replace(oldc, new)` for a single-character pattern, as used by the
script for `dt.replace("Z", "+00:00")`. -/
def pyReplaceChar (s : List Char) (oldc : Char) (new : List Char) : List Char :=
  match s with
  | [] => []
  | c :: rest => (if c = oldc then new else [c]) ++ pyReplaceChar rest oldc new

/-!
## Dates and `datetime.fromisoformat`

A parsed timestamp keeps the wall-clock fields the script uses: `.date()`
(for the calendar-day difference) and `strftime("%Y-%m-%d %H:%M:%S UTC")`.
A UTC offset in the input string is validated but, as in Python, does not
change the wall-clock fields that `.date()` and `strftime` read.
-/

structure PyDateTime where
  year : Nat
  month : Nat
  day : Nat
  hour : Nat
  minute : Nat
  second : Nat
  deriving Repr, DecidableEq

/-- Gregorian leap year, as in Python `calendar.isleap`. -/
def isLeap (y : Nat) : Bool :=
  y % 4 = 0 && (y % 100 ≠ 0 || y % 400 = 0)

/-- Days in a month of a given year. -/
def daysInMonth (y m : Nat) : Nat :=
  if m = 2 then (if isLeap y then 29 else 28)
  else if m = 4 || m = 6 || m = 9 || m = 11 then 30
  else 31

/-- Days strictly before month `m` in a non-leap year. -/
def daysBeforeMonth (m : Nat) : Nat :=
  match m with
  | 1 => 0 | 2 => 31 | 3 => 59 | 4 => 90 | 5 => 120 | 6 => 151
  | 7 => 181 | 8 => 212 | 9 => 243 | 10 => 273 | 11 => 304 | 12 => 334
  | _ => 0

/-- Proleptic-Gregorian ordinal of a date, as Python `date.toordinal`:
day 1 is January 1 of year 1.  `(a.date() - b.date()).days` in the script
is exactly `toOrdinal a - toOrdinal b`. -/
def dateOrdinal (d : PyDateTime) : Nat :=
  365 * (d.year - 1) + (d.year - 1) / 4 + (d.year - 1) / 400
    + daysBeforeMonth d.month
    + (if 2 < d.month ∧ isLeap d.year then 1 else 0)
    + d.day
    - (d.year - 1) / 100

/-- `(now.date() - snap.date()).days` from the script. -/
def daysDiff (now snap : PyDateTime) : Int :=
  (dateOrdinal now : Int) - (dateOrdinal snap : Int)

/-- Value of an ASCII digit, `none` for non-digits. -/
def digitVal (c : Char) : Option Nat :=
  if 48 ≤ c.toNat ∧ c.toNat ≤ 57 then some (c.toNat - 48) else none

/-- Parse exactly two digits. -/
def parse2 (a b : Char) : Option Nat := do
  let x ← digitVal a
  let y ← digitVal b
  pure (10 * x + y)

/-- Parse exactly four digits. -/
def parse4 (a b c d : Char) : Option Nat := do
  let x ← parse2 a b
  let y ← parse2 c d
  pure (100 * x + y)

/-- Optional fractional-seconds part: `.` followed by one to six digits.
Returns the remainder on success; the fraction itself is discarded, as the
script never reads microseconds. -/
def parseFraction (l : List Char) : Option (List Char) :=
  match l with
  | '.' :: rest =>
    let digits := rest.takeWhile (fun c => (digitVal c).isSome)
    if 1 ≤ digits.length ∧ digits.length ≤ 6 then
      some (rest.drop digits.length)
    else none
  | _ => some l

/-- Optional UTC-offset suffix `±HH:MM`, validated and discarded (Python
keeps it as `tzinfo`, which `.date()` and `strftime` ignore). -/
def parseOffset (l : List Char) : Option Unit :=
  match l with
  | [] => some ()
  | sign :: h1 :: h2 :: ':' :: m1 :: m2 :: [] =>
    if sign = '+' ∨ sign = '-' then do
      let oh ← parse2 h1 h2
      let om ← parse2 m1 m2
      if oh < 24 ∧ om < 60 then pure () else none
    else none
  | _ => none

/-- Time-of-day part after the separator: `HH[:MM[:SS[.ffffff]]]` with an
optional offset, modelling the grammar `datetime.fromisoformat` accepts. -/
def parseTimePart (l : List Char) : Option (Nat × Nat × Nat) :=
  match l with
  | h1 :: h2 :: ':' :: m1 :: m2 :: ':' :: s1 :: s2 :: rest => do
    let h ← parse2 h1 h2
    let m ← parse2 m1 m2
    let s ← parse2 s1 s2
    let rest2 ← parseFraction rest
    parseOffset rest2
    if h < 24 ∧ m < 60 ∧ s < 60 then pure (h, m, s) else none
  | h1 :: h2 :: ':' :: m1 :: m2 :: rest => do
    let h ← parse2 h1 h2
    let m ← parse2 m1 m2
    parseOffset rest
    if h < 24 ∧ m < 60 then pure (h, m, 0) else none
  | h1 :: h2 :: rest => do
    let h ← parse2 h1 h2
    parseOffset rest
    if h < 24 then pure (h, 0, 0) else none
  | _ => none

/-- `datetime.fromisoformat`: `YYYY-MM-DD` optionally followed by a single
separator character and a time part. -/
def fromisoformat (l : List Char) : Option PyDateTime :=
  match l with
  | y1 :: y2 :: y3 :: y4 :: '-' :: m1 :: m2 :: '-' :: d1 :: d2 :: rest => do
    let y ← parse4 y1 y2 y3 y4
    let m ← parse2 m1 m2
    let d ← parse2 d1 d2
    if 1 ≤ y ∧ 1 ≤ m ∧ m ≤ 12 ∧ 1 ≤ d ∧ d ≤ daysInMonth y m then
      match rest with
      | [] => pure ⟨y, m, d, 0, 0, 0⟩
      | _ :: timeChars => do
        let (h, mi, s) ← parseTimePart timeChars
        pure ⟨y, m, d, h, mi, s⟩
    else none
  | _ => none

/-- The script's guarded parse of a snapshot timestamp:
`datetime.fromisoformat(dt.replace("Z", "+00:00"))` inside `try`/`except`;
a missing field (`dt is None`) raises `AttributeError`, caught as `none`. -/
def parseSnapDate (dt : Option String) : Option PyDateTime :=
  match dt with
  | none => none
  | some s => fromisoformat (pyReplaceChar s.toList 'Z' "+00:00".toList)

/-- Zero-padded two-digit decimal. -/
def pad2 (n : Nat) : String :=
  if n < 10 then "0" ++ toString n else toString n

/-- Zero-padded four-digit decimal (years of interest are ≤ 9999). -/
def pad4 (n : Nat) : String :=
  if n < 10 then "000" ++ toString n
  else if n < 100 then "00" ++ toString n
  else if n < 1000 then "0" ++ toString n
  else toString n

/-- `snap_dt.strftime("%Y-%m-%d %H:%M:%S UTC")` from the script. -/
def strftimeUTC (d : PyDateTime) : String :=
  pad4 d.year ++ "-" ++ pad2 d.month ++ "-" ++ pad2 d.day ++ " "
    ++ pad2 d.hour ++ ":" ++ pad2 d.minute ++ ":" ++ pad2 d.second ++ " UTC"

/-!
## GraphQL snapshot-list payloads

These structures model the JSON dictionaries the script reads with
`dict.get`.  An `Option` field is `none` when the key is absent or null
(the script treats both the same through `get` defaults and `or {}`).
-/

structure SlaDomain where
  name : Option String
  deriving Repr, DecidableEq

structure SnapNode where
  date : Option String
  slaDomain : Option SlaDomain
  deriving Repr, DecidableEq

structure SnapEdge where
  node : Option SnapNode
  deriving Repr, DecidableEq

structure SnapConn where
  edges : Option (List SnapEdge)
  deriving Repr, DecidableEq

structure SnapData where
  snapshotsListConnection : Option SnapConn
  deriving Repr, DecidableEq

structure SnapPayload where
  data : Option SnapData
  deriving Repr, DecidableEq

/-- `snaps.get("data", {}).get("snapshotsListConnection") if snaps else None`
followed by `(conn or {}).get("edges", []) if conn else []` (fileset path);
the VM path's `conn.get("edges", []) if conn else []` is identical because
`conn` is a dict or `None`. -/
def edgesOf (snaps : Option SnapPayload) : List SnapEdge :=
  match snaps with
  | none => []
  | some p =>
    match (p.data.getD ⟨none⟩).snapshotsListConnection with
    | none => []
    | some conn => conn.edges.getD []

/-- `edges[0].get("node", {})`. -/
def nodeOf (e : SnapEdge) : SnapNode :=
  e.node.getD ⟨none, none⟩

/-- `(latest.get("slaDomain") or {}).get("name", "N/A")`. -/
def slaNameOf (latest : SnapNode) : String :=
  match latest.slaDomain with
  | none => "N/A"
  | some s => s.name.getD "N/A"

/-- `latest_snapshot_after_cutoff` (lines 160-188), given the parsed
GraphQL response and the current UTC datetime.  Returns
`(status, formatted timestamp or "N/A", snapshot count, SLA name)`. -/
def latest_snapshot_after_cutoff (snaps : Option SnapPayload)
    (now : PyDateTime) : String × String × Nat × String :=
  let edges := edgesOf snaps
  match edges with
  | [] => ("NO", "N/A", 0, "N/A")
  | e :: _ =>
    let latest := nodeOf e
    let sla_name := slaNameOf latest
    match parseSnapDate latest.date with
    | none => ("NO", "N/A", edges.length, sla_name)
    | some snap_dt =>
      let days_diff := daysDiff now snap_dt
      let status := if days_diff = 0 ∨ days_diff = 1 then "YES" else "NO"
      (status, strftimeUTC snap_dt, edges.length, sla_name)

/-!
## Query variables (`vars_json`) and the page-size default
-/

inductive PyVal where
  | str (s : String)
  | num (n : Int)
  deriving Repr, DecidableEq

/-- A JSON object as the script sees it: a key/value dictionary. -/
abbrev PyDict := List (String × PyVal)

/-- `dict.setdefault(k, v)`: insert only when the key is absent. -/
def pySetdefault (d : PyDict) (k : String) (v : PyVal) : PyDict :=
  match d.lookup k with
  | some _ => d
  | none => d ++ [(k, v)]

/-- Construction of `vars_json` in `latest_snapshot_after_cutoff` and in
`check_vm_snapshots`: `json.loads` of the template (its result, or `none`
when loading raised) with fallback `{"snappableId": snappable_id}`, then
`vars_json.setdefault("first", 50)`. -/
def buildSnapshotVars (parsedTemplate : Option PyDict)
    (snappable_id : String) : PyDict :=
  let vars_json := parsedTemplate.getD [("snappableId", PyVal.str snappable_id)]
  pySetdefault vars_json "first" (PyVal.num 50)

/-!
## The query executor `Rubrik.q`
-/

/-- What one `requests.post` to the GraphQL endpoint can yield:
a response with an HTTP status and the result of `resp.json()` (`none` if
parsing the body raised), a timeout, or any other transport exception. -/
inductive HttpOutcome where
  | response (status : Nat) (body : Option SnapPayload)
  | timeout
  | transportError
  deriving Repr, DecidableEq

/-- `Rubrik.q` (lines 97-122): returns the parsed payload on HTTP 200,
`None` on any non-200 status, timeout, transport error, or body-parse
failure; every exception is caught, so the function is total.  Logging
(`print`) has no effect on the returned value and is not modelled. -/
def Rubrik.q (outcome : HttpOutcome) : Option SnapPayload :=
  match outcome with
  | .response status body =>
    if status ≠ 200 then none
    else body
  | .timeout => none
  | .transportError => none

/-!
## Fileset entries, the indexer and the matcher
-/

/-- A fileset dictionary as built by `fetch_all_filesets`.  `sla` is an
`Option` because `check_filesets` reads it with `fs.get("sla", default)`,
which can only fall back when the key is absent; `fetch_all_filesets`
always stores it.  `requested_server` models the `_requested_server` key
that `check_filesets` adds to every matched entry. -/
structure FilesetEntry where
  snappable_id : Option String
  server : String
  fileset : String
  cluster : String
  sla : Option String
  path : String
  type : String
  requested_server : Option String
  deriving Repr, DecidableEq

/-- The `physicalPath` field of a child node: absent/null, a list of
dictionaries with a `name`, or a single such dictionary. -/
inductive PhysPath where
  | missing
  | list (ps : List (Option String))
  | obj (name : Option String)
  deriving Repr, DecidableEq

/-- `_safe_path_string` (lines 144-152).  `if not physical_path_field`
makes `None` and the empty list both yield `"n/a"`. -/
def safe_path_string : PhysPath → String
  | .missing => "n/a"
  | .list ps =>
    if ps = [] then "n/a"
    else pyLower (String.intercalate ", " (ps.map (fun p => p.getD "")))
  | .obj name => pyLower (name.getD "n/a")

/-- A child node of a fileset template (`physicalChildConnection` edge). -/
structure FilesetChild where
  id : Option String
  name : Option String
  effectiveSlaDomain : Option SlaDomain
  physicalPath : PhysPath
  deriving Repr, DecidableEq

/-- The dictionary `fetch_all_filesets` appends for each child (lines
211-221 and 237-247; the Windows and Linux loops build identical records
up to the `type` string).  `(child.get("name") or "n/a").lower()` treats
an absent, null or empty name as `"n/a"`;
`(child.get("effectiveSlaDomain", {}) or {}).get("name", "N/A")` treats an
absent or null SLA domain as `{}`. -/
def mkFilesetEntry (fs_name cluster : String) (child : FilesetChild)
    (ty : String) : FilesetEntry :=
  { snappable_id := child.id
    server := pyLower (pyOrDefault child.name "n/a")
    fileset := fs_name
    cluster := cluster
    sla := some ((child.effectiveSlaDomain.getD ⟨none⟩).name.getD "N/A")
    path := safe_path_string child.physicalPath
    type := ty
    requested_server := none }

/-- `fuzzy_match` (lines 155-157): lowercase the requested name and test
substring containment against the stored `server` and `path` fields. -/
def fuzzy_match (server : String) (fileset : FilesetEntry) : Bool :=
  let s := pyLower server
  pyIn s fileset.server || pyIn s fileset.path

/-!
## Result records
-/

/-- A fileset result record (`check_filesets`, lines 275-304). -/
structure FsResult where
  server : String
  type : String
  cluster : String
  in_rubrik : String
  fileset : String
  last_backup : String
  status : String
  snapshot_count : Nat
  sla_domain : String
  deriving Repr, DecidableEq

/-- The result record `check_filesets` builds for one matched entry: the
no-snappable-id branch (lines 274-288, `if not snappable_id` is Python
truthiness, so `None` and `""` both take it) and the evaluator branch
(lines 290-304), with `snaps` the GraphQL response the evaluator sees. -/
def filesetResultFor (fs : FilesetEntry) (snaps : Option SnapPayload)
    (now : PyDateTime) : FsResult :=
  if ¬ pyTruthyOptStr fs.snappable_id then
    { server := fs.requested_server.getD fs.server
      type := fs.type
      cluster := fs.cluster
      in_rubrik := "NO"
      fileset := fs.fileset
      last_backup := "N/A"
      status := "NO"
      snapshot_count := 0
      sla_domain := fs.sla.getD "N/A" }
  else
    let r := latest_snapshot_after_cutoff snaps now
    { server := fs.requested_server.getD fs.server
      type := fs.type
      cluster := fs.cluster
      in_rubrik := "YES"
      fileset := fs.fileset
      last_backup := r.2.1
      status := r.1
      snapshot_count := r.2.2.1
      sla_domain := fs.sla.getD r.2.2.2 }

/-- A VM snapshot result record (`check_vm_snapshots`). -/
structure VmResult where
  server : String
  in_rubrik : String
  last_backup : String
  status : String
  snapshot_count : Nat
  sla_domain : String
  deriving Repr, DecidableEq

/-- The per-server body of `check_vm_snapshots` (lines 352-416): `rid` is
`idmap.get(srv)` and `snaps` the GraphQL response.  `if not rid` is Python
truthiness.  The inline date logic repeats `latest_snapshot_after_cutoff`
verbatim (parse with `Z` replacement under `try`/`except`, calendar-day
difference, `{0,1}` classification). -/
def vm_result_for (srv : String) (rid : Option String)
    (snaps : Option SnapPayload) (now : PyDateTime) : VmResult :=
  if ¬ pyTruthyOptStr rid then
    { server := srv, in_rubrik := "NO", last_backup := "N/A"
      status := "NO", snapshot_count := 0, sla_domain := "N/A" }
  else
    let edges := edgesOf snaps
    match edges with
    | [] =>
      { server := srv, in_rubrik := "YES", last_backup := "N/A"
        status := "NO", snapshot_count := 0, sla_domain := "N/A" }
    | e :: _ =>
      let latest := nodeOf e
      let sla_name := slaNameOf latest
      match parseSnapDate latest.date with
      | none =>
        { server := srv, in_rubrik := "YES", last_backup := "N/A"
          status := "NO", snapshot_count := edges.length
          sla_domain := sla_name }
      | some snap_dt =>
        let days_diff := daysDiff now snap_dt
        let backed_up := if days_diff = 0 ∨ days_diff = 1 then "YES" else "NO"
        { server := srv, in_rubrik := "YES"
          last_backup := strftimeUTC snap_dt
          status := backed_up, snapshot_count := edges.length
          sla_domain := sla_name }

/-!
## Server-list loading and the start of `main`
-/

/-- The comprehension in `load_server_list` (line 134):
`[line.strip().lower() for line in handle if line.strip()]`. -/
def processServerLines (lines : List String) : List String :=
  (lines.filter (fun line => pyStrip line ≠ "")).map
    (fun line => pyLower (pyStrip line))

/-- The file system visible to the script: each existing path with the
lines iterating over its handle yields. -/
abbrev FileSys := List (String × List String)

/-- `load_server_list` (lines 128-136): abort (`SystemExit`, modelled as
`Except.error`) when the path is falsy or does not exist, otherwise the
stripped, lowercased, non-blank lines. -/
def load_server_list (fs : FileSys) (path : Option String) (label : String) :
    Except String (List String) :=
  if ¬ pyTruthyOptStr path then
    .error ("[ERROR] " ++ label ++ " path not provided. Set SERVER_LIST_PATH or serverlist.")
  else
    match path with
    | none => .error ("[ERROR] " ++ label ++ " path not provided. Set SERVER_LIST_PATH or serverlist.")
    | some p =>
      match fs.lookup p with
      | none => .error ("[ERROR] " ++ label ++ " not found: " ++ p)
      | some lines => .ok (processServerLines lines)

/-- The environment variables `main` and module set-up read. -/
structure Env where
  SERVER_LIST_PATH : Option String
  serverlist : Option String
  FILESET_SERVER_LIST_PATH : Option String
  VMSNAPSHOT_SERVER_LIST_PATH : Option String
  RUBRIK_CLIENT_ID : Option String
  RUBRIK_CLIENT_SECRET : Option String
  deriving Repr

/-- Module-level `SERVER_LIST_PATH = os.getenv("SERVER_LIST_PATH") or
os.getenv("serverlist")` (line 52) and `shared_path = SERVER_LIST_PATH or
"L2Backup/serverslist5"` (line 449). -/
def resolvedSharedPath (env : Env) : String :=
  pyOrDefault (pyOrOpt env.SERVER_LIST_PATH env.serverlist) "L2Backup/serverslist5"

/-- `Rubrik.__init__`'s credential guard (lines 66-68) followed by
`_auth` (raises `SystemExit(1)` on any failure, modelled by `authOk`). -/
def rubrikInit (cid csecret : Option String) (authOk : Bool) :
    Except String Unit :=
  if ¬ pyTruthyOptStr cid ∨ ¬ pyTruthyOptStr csecret then
    .error "RUBRIK_CLIENT_ID and RUBRIK_CLIENT_SECRET must be set."
  else if authOk then .ok () else .error "1"

/-- The part of `main` (lines 448-461) that runs before any per-server
processing: load the shared list, optionally the two override lists, then
construct the `Rubrik` client.  `check_filesets` and `check_vm_snapshots`
consume only the `.ok` payload, so an `Except.error` here is an abort
before any per-server processing. -/
def mainLoadAndAuth (env : Env) (fs : FileSys) (authOk : Bool) :
    Except String (List String × List String) :=
  let shared_path := resolvedSharedPath env
  (load_server_list fs (some shared_path) "shared server list").bind
    fun serverlist =>
      (if pyTruthyOptStr env.FILESET_SERVER_LIST_PATH
          ∧ env.FILESET_SERVER_LIST_PATH ≠ some shared_path then
        load_server_list fs env.FILESET_SERVER_LIST_PATH "fileset server list"
      else Except.ok serverlist).bind
        fun fileset_serverlist =>
          (if pyTruthyOptStr env.VMSNAPSHOT_SERVER_LIST_PATH
              ∧ env.VMSNAPSHOT_SERVER_LIST_PATH ≠ some shared_path then
            load_server_list fs env.VMSNAPSHOT_SERVER_LIST_PATH "VM snapshot server list"
          else Except.ok serverlist).bind
            fun snapshot_serverlist =>
              (rubrikInit env.RUBRIK_CLIENT_ID env.RUBRIK_CLIENT_SECRET authOk).bind
                fun _ => Except.ok (fileset_serverlist, snapshot_serverlist)

/-- `SystemExit` exit status: a `SystemExit` raised with a message (or
with `1`) terminates the process with status 1; normal completion is 0. -/
def exitCodeOf {α : Type} : Except String α → Nat
  | .error _ => 1
  | .ok _ => 0

/-!
## Summary
-/

/-- `summarize` (lines 426-435), generic in the record type the way the
Python version is generic in the dictionaries it receives: returns
`(total, success, failed)`. -/
def summarize {α : Type} (statusOf : α → String) (results : List α) :
    Nat × Nat × Nat :=
  let total := results.length
  let success := (results.filter (fun entry => statusOf entry = "YES")).length
  let failed := total - success
  (total, success, failed)

/-!
## Concrete fixtures used by witness theorems
-/

/-- A snapshot-list payload with two edges whose first node carries the
given date string and SLA domain name `"Gold"`. -/
def exSnapshots (d : String) : Option SnapPayload :=
  some ⟨some ⟨some ⟨some [⟨some ⟨some d, some ⟨some "Gold"⟩⟩⟩, ⟨none⟩]⟩⟩⟩

/-- A fixed "current UTC datetime" for witnesses: 2024-01-03 12:00:00. -/
def exNow : PyDateTime := ⟨2024, 1, 3, 12, 0, 0⟩

/-!
## Helper lemmas
-/

theorem headAgrees_iff (s t : List Char) :
    headAgrees s t = true ↔ ∃ suf, t = s ++ suf := by
  induction s generalizing t with
  | nil => simp [headAgrees]
  | cons a as ih =>
    cases t with
    | nil => simp [headAgrees]
    | cons b bs =>
      simp only [headAgrees, Bool.and_eq_true, decide_eq_true_eq, ih,
        List.cons_append, List.cons.injEq]
      constructor
      · rintro ⟨rfl, suf, rfl⟩
        exact ⟨suf, rfl, rfl⟩
      · rintro ⟨suf, rfl, rfl⟩
        exact ⟨rfl, suf, rfl⟩

theorem isSubL_iff (s t : List Char) :
    isSubL s t = true ↔ ∃ pre suf, t = pre ++ s ++ suf := by
  induction t with
  | nil =>
    simp only [isSubL, headAgrees_iff]
    constructor
    · rintro ⟨suf, h⟩
      exact ⟨[], suf, by simpa using h⟩
    · rintro ⟨pre, suf, h⟩
      have h2 : pre = [] ∧ s = [] ∧ suf = [] := by
        simpa using h.symm
      exact ⟨suf, by simp [h2.1, h2.2.1, h2.2.2]⟩
  | cons c t ih =>
    simp only [isSubL, Bool.or_eq_true, headAgrees_iff, ih]
    constructor
    · rintro (⟨suf, h⟩ | ⟨pre, suf, rfl⟩)
      · exact ⟨[], suf, by simpa using h⟩
      · exact ⟨c :: pre, suf, by simp⟩
    · rintro ⟨pre, suf, h⟩
      cases pre with
      | nil => exact Or.inl ⟨suf, by simpa using h⟩
      | cons p ps =>
        right
        rw [List.cons_append, List.cons_append, List.cons.injEq] at h
        exact ⟨ps, suf, h.2⟩

theorem pyIn_iff (needle haystack : String) :
    pyIn needle haystack = true ↔
      ∃ pre suf, haystack.toList = pre ++ needle.toList ++ suf :=
  isSubL_iff _ _

theorem char_toNat_ofNat_of_lt {n : Nat} (h : n < 55296) :
    (Char.ofNat n).toNat = n := by
  simp only [Char.ofNat, Nat.isValidChar, Char.toNat, Char.ofNatAux]
  rw [dif_pos (Or.inl h)]
  simp [UInt32.toNat, BitVec.toNat_ofNatLt]

theorem char_eq_iff_toNat {c d : Char} : c = d ↔ c.toNat = d.toNat := by
  constructor
  · intro h; rw [h]
  · intro h; exact Char.ext (UInt32.ext h)

theorem pyLowerChar_eq_self (c : Char) (h : ¬(65 ≤ c.toNat ∧ c.toNat ≤ 90)) :
    pyLowerChar c = c := by
  unfold pyLowerChar
  rw [if_neg h]

theorem toNat_pyLowerChar (c : Char) :
    (pyLowerChar c).toNat =
      if 65 ≤ c.toNat ∧ c.toNat ≤ 90 then c.toNat + 32 else c.toNat := by
  unfold pyLowerChar
  split
  · next h => exact char_toNat_ofNat_of_lt (by omega)
  · rfl

theorem pyLowerChar_idem (c : Char) : pyLowerChar (pyLowerChar c) = pyLowerChar c := by
  by_cases h : 65 ≤ c.toNat ∧ c.toNat ≤ 90
  · have h1 : (pyLowerChar c).toNat = c.toNat + 32 := by
      rw [toNat_pyLowerChar, if_pos h]
    exact pyLowerChar_eq_self _ (by rw [h1]; omega)
  · rw [pyLowerChar_eq_self c h, pyLowerChar_eq_self c h]

theorem pyIsSpace_eq_false_of_ge (c : Char) (h : 65 ≤ c.toNat) :
    pyIsSpace c = false := by
  have hs : ∀ d : Char, d.toNat < 65 → c ≠ d := by
    intro d hd he
    rw [char_eq_iff_toNat] at he
    omega
  unfold pyIsSpace
  simp only [Bool.or_eq_false_iff, decide_eq_false_iff_not]
  refine ⟨⟨⟨⟨⟨?_, ?_⟩, ?_⟩, ?_⟩, ?_⟩, ?_⟩ <;> exact hs _ (by decide)

theorem pyIsSpace_pyLowerChar (c : Char) :
    pyIsSpace (pyLowerChar c) = pyIsSpace c := by
  by_cases h : 65 ≤ c.toNat ∧ c.toNat ≤ 90
  · have h1 : (pyLowerChar c).toNat = c.toNat + 32 := by
      rw [toNat_pyLowerChar, if_pos h]
    rw [pyIsSpace_eq_false_of_ge _ (by omega : 65 ≤ (pyLowerChar c).toNat),
      pyIsSpace_eq_false_of_ge _ h.1]
  · rw [pyLowerChar_eq_self c h]

theorem dropWhile_of_dropWhile_eq_self {p : Char → Bool} {l l2 : List Char}
    (h : l.dropWhile p = l) (hpre : l2 <+: l) : l2.dropWhile p = l2 := by
  cases l2 with
  | nil => rfl
  | cons c t =>
    obtain ⟨rest, hrest⟩ := hpre
    have hc : p c = false := by
      by_contra hc
      have hc2 : p c = true := by
        cases hx : p c with
        | false => exact absurd hx hc
        | true => rfl
      rw [← hrest, List.cons_append, List.dropWhile_cons, if_pos hc2] at h
      have hlen := congrArg List.length h
      have hle := (List.dropWhile_suffix (l := t ++ rest) p).length_le
      rw [List.length_cons] at hlen
      omega
    rw [List.dropWhile_cons, if_neg (by simp [hc])]

theorem dropWhile_idem (p : Char → Bool) (l : List Char) :
    (l.dropWhile p).dropWhile p = l.dropWhile p := by
  induction l with
  | nil => rfl
  | cons c t ih =>
    rw [List.dropWhile_cons]
    split
    · exact ih
    · next h => rw [List.dropWhile_cons, if_neg h]

theorem pyStripList_idem (l : List Char) :
    pyStripList (pyStripList l) = pyStripList l := by
  unfold pyStripList
  set A := l.dropWhile pyIsSpace with hA
  set B := A.reverse.dropWhile pyIsSpace with hB
  have hAfix : A.dropWhile pyIsSpace = A := by rw [hA]; exact dropWhile_idem _ _
  have hBfix : B.dropWhile pyIsSpace = B := by rw [hB]; exact dropWhile_idem _ _
  have hpre : B.reverse <+: A := by
    rw [← List.reverse_reverse A]
    exact List.reverse_prefix.mpr (List.dropWhile_suffix _)
  have h1 : B.reverse.dropWhile pyIsSpace = B.reverse :=
    dropWhile_of_dropWhile_eq_self hAfix hpre
  rw [h1, List.reverse_reverse, hBfix]

theorem pyStripList_map_pyLowerChar (l : List Char) :
    pyStripList (l.map pyLowerChar) = (pyStripList l).map pyLowerChar := by
  unfold pyStripList
  have hcomp : (pyIsSpace ∘ pyLowerChar) = pyIsSpace := by
    funext c
    exact pyIsSpace_pyLowerChar c
  rw [List.dropWhile_map, hcomp, ← List.map_reverse, List.dropWhile_map, hcomp,
    List.map_reverse]

theorem toList_pyLower (s : String) : (pyLower s).toList = s.toList.map pyLowerChar := rfl

theorem toList_pyStrip (s : String) : (pyStrip s).toList = pyStripList s.toList := rfl

theorem string_eq_iff_toList {s t : String} : s = t ↔ s.toList = t.toList := by
  constructor
  · intro h; rw [h]
  · intro h; exact String.ext h

theorem pyLower_idem (s : String) : pyLower (pyLower s) = pyLower s := by
  rw [string_eq_iff_toList, toList_pyLower, toList_pyLower, List.map_map]
  congr 1
  funext c
  exact pyLowerChar_idem c

theorem pyStrip_pyLower_pyStrip (s : String) :
    pyStrip (pyLower (pyStrip s)) = pyLower (pyStrip s) := by
  rw [string_eq_iff_toList, toList_pyStrip, toList_pyLower, toList_pyStrip,
    pyStripList_map_pyLowerChar, pyStripList_idem]

theorem pyLower_ne_empty {s : String} (h : s ≠ "") : pyLower s ≠ "" := by
  intro hc
  apply h
  rw [string_eq_iff_toList] at hc ⊢
  rw [toList_pyLower] at hc
  have hnil : ("" : String).toList = [] := rfl
  rw [hnil] at hc ⊢
  exact List.map_eq_nil_iff.mp hc

theorem latest_status_spec (snaps : Option SnapPayload) (now : PyDateTime) :
    (latest_snapshot_after_cutoff snaps now).1 = "YES" ↔
      ∃ e rest d, edgesOf snaps = e :: rest ∧
        parseSnapDate (nodeOf e).date = some d ∧
        (daysDiff now d = 0 ∨ daysDiff now d = 1) := by
  rcases h : edgesOf snaps with _ | ⟨e, rest⟩
  · simp [latest_snapshot_after_cutoff, h]
  · simp only [latest_snapshot_after_cutoff, h]
    rcases hp : parseSnapDate (nodeOf e).date with _ | d
    · simp only [hp]
      refine iff_of_false (by decide) ?_
      rintro ⟨e1, r1, d1, he, hp1, _⟩
      rw [List.cons.injEq] at he
      rw [he.1] at hp
      rw [hp] at hp1
      exact Option.noConfusion hp1
    · simp only [hp]
      split
      · next hd =>
        refine iff_of_true rfl ?_
        exact ⟨e, rest, d, rfl, hp, hd⟩
      · next hd =>
        refine iff_of_false (by decide) ?_
        rintro ⟨e1, r1, d1, he, hp1, hd1⟩
        rw [List.cons.injEq] at he
        rw [he.1] at hp
        rw [hp] at hp1
        rw [Option.some.injEq] at hp1
        rw [← hp1] at hd1
        exact hd hd1

theorem vm_status_spec (srv : String) (rid : Option String)
    (snaps : Option SnapPayload) (now : PyDateTime) :
    (vm_result_for srv rid snaps now).status = "YES" ↔
      pyTruthyOptStr rid = true ∧
      ∃ e rest d, edgesOf snaps = e :: rest ∧
        parseSnapDate (nodeOf e).date = some d ∧
        (daysDiff now d = 0 ∨ daysDiff now d = 1) := by
  by_cases hr : pyTruthyOptStr rid = true
  · rcases h : edgesOf snaps with _ | ⟨e, rest⟩
    · simp [vm_result_for, hr, h]
    · simp only [vm_result_for, hr, h, not_true, if_false, Bool.not_eq_true]
      rcases hp : parseSnapDate (nodeOf e).date with _ | d
      · simp only [hp]
        refine iff_of_false (by decide) ?_
        rintro ⟨_, e1, r1, d1, he, hp1, _⟩
        rw [List.cons.injEq] at he
        rw [he.1] at hp
        rw [hp] at hp1
        exact Option.noConfusion hp1
      · simp only [hp]
        split
        · next hd =>
          refine iff_of_true rfl ?_
          exact ⟨by simp [hr], e, rest, d, rfl, hp, hd⟩
        · next hd =>
          refine iff_of_false (by decide) ?_
          rintro ⟨_, e1, r1, d1, he, hp1, hd1⟩
          rw [List.cons.injEq] at he
          rw [he.1] at hp
          rw [hp] at hp1
          rw [Option.some.injEq] at hp1
          rw [← hp1] at hd1
          exact hd hd1
  · refine iff_of_false ?_ ?_
    · simp [vm_result_for, hr]
    · rintro ⟨h1, _⟩
      exact hr h1

theorem latest_status_yes_or_no (snaps : Option SnapPayload) (now : PyDateTime) :
    (latest_snapshot_after_cutoff snaps now).1 = "YES" ∨
      (latest_snapshot_after_cutoff snaps now).1 = "NO" := by
  rcases h : edgesOf snaps with _ | ⟨e, rest⟩
  · right; simp [latest_snapshot_after_cutoff, h]
  · simp only [latest_snapshot_after_cutoff, h]
    rcases hp : parseSnapDate (nodeOf e).date with _ | d
    · right; simp [hp]
    · simp only [hp]
      split
      · left; rfl
      · right; rfl

/-- C1: a result's freshness status is `"YES"` iff at least one snapshot
edge was returned, its timestamp parses, and the UTC calendar-day
difference from now is 0 or 1 — on both the fileset path
(`latest_snapshot_after_cutoff`) and the VM path (`check_vm_snapshots`);
in particular a parsed timestamp two or more days old, or in the future,
yields `"NO"`. -/
theorem C1_freshness_status (snaps : Option SnapPayload) (now : PyDateTime)
    (srv : String) (rid : Option String) :
    ((latest_snapshot_after_cutoff snaps now).1 = "YES" ↔
      ∃ e rest d, edgesOf snaps = e :: rest ∧
        parseSnapDate (nodeOf e).date = some d ∧
        (daysDiff now d = 0 ∨ daysDiff now d = 1)) ∧
    ((vm_result_for srv rid snaps now).status = "YES" ↔
      pyTruthyOptStr rid = true ∧
      ∃ e rest d, edgesOf snaps = e :: rest ∧
        parseSnapDate (nodeOf e).date = some d ∧
        (daysDiff now d = 0 ∨ daysDiff now d = 1)) ∧
    (∀ e rest d, edgesOf snaps = e :: rest →
      parseSnapDate (nodeOf e).date = some d →
      (2 ≤ daysDiff now d ∨ daysDiff now d < 0) →
      (latest_snapshot_after_cutoff snaps now).1 = "NO") := by
  refine ⟨latest_status_spec snaps now, vm_status_spec srv rid snaps now, ?_⟩
  intro e rest d he hp hd
  rcases latest_status_yes_or_no snaps now with hy | hn
  · exfalso
    obtain ⟨e1, r1, d1, he1, hp1, hd1⟩ := (latest_status_spec snaps now).mp hy
    rw [he] at he1
    rw [List.cons.injEq] at he1
    rw [← he1.1] at hp1
    rw [hp] at hp1
    rw [Option.some.injEq] at hp1
    rw [← hp1] at hd1
    omega
  · exact hn

/-- Witness for C1: a latest snapshot dated 2024-01-01 seen at
2024-01-03 (two calendar days later) yields status `"NO"`. -/
theorem C1_freshness_status_witness :
    (latest_snapshot_after_cutoff (exSnapshots "2024-01-01T03:04:05Z") exNow).1 = "NO" :=
  (C1_freshness_status (exSnapshots "2024-01-01T03:04:05Z") exNow "srv" none).2.2
    ⟨some ⟨some "2024-01-01T03:04:05Z", some ⟨some "Gold"⟩⟩⟩ [⟨none⟩]
    ⟨2024, 1, 1, 3, 4, 5⟩ (by rfl) (by rfl) (by decide)

/-- C2: when the first snapshot edge's timestamp fails to parse (a
malformed string or a missing `date` field), the freshness evaluator
returns — totally, with no exception to raise in the embedding — status
`"NO"`, formatted timestamp `"N/A"`, the true edge count, and the latest
node's SLA domain name (`"N/A"` when unavailable); and a missing
timestamp is indeed a parse failure. -/
theorem C2_parse_failure_graceful (snaps : Option SnapPayload)
    (now : PyDateTime) (e : SnapEdge) (rest : List SnapEdge)
    (h : edgesOf snaps = e :: rest)
    (hp : parseSnapDate (nodeOf e).date = none) :
    latest_snapshot_after_cutoff snaps now =
      ("NO", "N/A", (e :: rest).length, slaNameOf (nodeOf e)) ∧
    parseSnapDate none = none := by
  refine ⟨?_, rfl⟩
  simp [latest_snapshot_after_cutoff, h, hp]

/-- Witness for C2: a two-edge payload whose first date is `"garbage"`
yields `("NO", "N/A", 2, "Gold")`. -/
theorem C2_parse_failure_graceful_witness :
    latest_snapshot_after_cutoff (exSnapshots "garbage") exNow =
        ("NO", "N/A", 2, "Gold") ∧
      parseSnapDate none = none :=
  C2_parse_failure_graceful (exSnapshots "garbage") exNow
    ⟨some ⟨some "garbage", some ⟨some "Gold"⟩⟩⟩ [⟨none⟩] (by rfl) (by rfl)

/-- C4: a snappable whose snapshot query yields zero edges produces
status `"NO"`, timestamp `"N/A"`, count 0 and SLA `"N/A"`, on both the
fileset path and the VM path. -/
theorem C4_zero_snapshots (snaps : Option SnapPayload) (now : PyDateTime)
    (srv : String) (rid : Option String)
    (h : edgesOf snaps = [])
    (hr : pyTruthyOptStr rid = true) :
    latest_snapshot_after_cutoff snaps now = ("NO", "N/A", 0, "N/A") ∧
    vm_result_for srv rid snaps now =
      { server := srv, in_rubrik := "YES", last_backup := "N/A"
        status := "NO", snapshot_count := 0, sla_domain := "N/A" } := by
  constructor
  · simp [latest_snapshot_after_cutoff, h]
  · simp [vm_result_for, hr, h]

/-- Witness for C4: a `None` response (hence no edges) for a VM with a
known Rubrik id. -/
theorem C4_zero_snapshots_witness :
    latest_snapshot_after_cutoff none exNow = ("NO", "N/A", 0, "N/A") ∧
    vm_result_for "srv1" (some "rid1") none exNow =
      { server := "srv1", in_rubrik := "YES", last_backup := "N/A"
        status := "NO", snapshot_count := 0, sla_domain := "N/A" } :=
  C4_zero_snapshots none exNow "srv1" (some "rid1") (by rfl) (by decide)

theorem lookup_append_of_lookup_none {l : List (String × PyVal)} {k : String}
    (h : l.lookup k = none) (v : PyVal) :
    (l ++ [(k, v)]).lookup k = some v := by
  induction l with
  | nil => simp [List.lookup]
  | cons p t ih =>
    obtain ⟨a, b⟩ := p
    cases hk : (k == a) with
    | false =>
      simp only [List.cons_append, List.lookup, hk] at h ⊢
      exact ih h
    | true =>
      simp only [List.lookup, hk] at h
      exact Option.noConfusion h

theorem latest_count_eq (snaps : Option SnapPayload) (now : PyDateTime) :
    (latest_snapshot_after_cutoff snaps now).2.2.1 = (edgesOf snaps).length := by
  rcases h : edgesOf snaps with _ | ⟨e, rest⟩
  · simp [latest_snapshot_after_cutoff, h]
  · simp only [latest_snapshot_after_cutoff, h]
    rcases hp : parseSnapDate (nodeOf e).date with _ | d <;> simp [hp]

/-- C5: `vars_json.setdefault("first", 50)` makes the page-size variable
50 whenever the parsed query-variable template (or its
`{"snappableId": id}` fallback) does not already carry a `"first"` key;
the reported snapshot count equals the number of returned edges, so under
that limit — a server honouring the requested page size returns at most
50 edges — the count never exceeds 50. -/
theorem C5_page_size_default (tpl : Option PyDict) (sid : String)
    (snaps : Option SnapPayload) (now : PyDateTime)
    (hNo : ∀ d, tpl = some d → d.lookup "first" = none)
    (hHonor : (edgesOf snaps).length ≤ 50) :
    (buildSnapshotVars tpl sid).lookup "first" = some (PyVal.num 50) ∧
    (latest_snapshot_after_cutoff snaps now).2.2.1 = (edgesOf snaps).length ∧
    (latest_snapshot_after_cutoff snaps now).2.2.1 ≤ 50 := by
  refine ⟨?_, latest_count_eq snaps now, ?_⟩
  · rcases tpl with _ | d
    · simp [buildSnapshotVars, pySetdefault, List.lookup]
    · have hd := hNo d rfl
      simp only [buildSnapshotVars, Option.getD, pySetdefault, hd]
      exact lookup_append_of_lookup_none hd _
  · rw [latest_count_eq snaps now]
    exact hHonor

/-- Witness for C5: the fallback variables for snappable `"abc"` carry
`"first" = 50`, and a two-edge response reports count 2 ≤ 50. -/
theorem C5_page_size_default_witness :
    (buildSnapshotVars none "abc").lookup "first" = some (PyVal.num 50) ∧
    (latest_snapshot_after_cutoff (exSnapshots "garbage") exNow).2.2.1 =
      (edgesOf (exSnapshots "garbage")).length ∧
    (latest_snapshot_after_cutoff (exSnapshots "garbage") exNow).2.2.1 ≤ 50 :=
  C5_page_size_default none "abc" (exSnapshots "garbage") exNow
    (fun d hd => Option.noConfusion hd) (by decide)

/-- C6: the query executor returns the parsed payload exactly on an HTTP
200 response whose body parsed; a non-200 status, a timeout, a transport
error, or a body-parse failure all yield `None`.  The embedding is a
total function: every exception branch of the source is a caught branch
returning `None`, so nothing propagates to the caller. -/
theorem C6_query_executor_total :
    (∀ (o : HttpOutcome) (p : SnapPayload),
      Rubrik.q o = some p ↔ o = HttpOutcome.response 200 (some p)) ∧
    (∀ (s : Nat) (b : Option SnapPayload), s ≠ 200 →
      Rubrik.q (HttpOutcome.response s b) = none) ∧
    Rubrik.q (HttpOutcome.response 200 none) = none ∧
    Rubrik.q HttpOutcome.timeout = none ∧
    Rubrik.q HttpOutcome.transportError = none := by
  refine ⟨?_, ?_, rfl, rfl, rfl⟩
  · intro o p
    cases o with
    | response s b =>
      by_cases hs : s = 200
      · subst hs
        simp [Rubrik.q]
      · simp [Rubrik.q, hs]
    | timeout => simp [Rubrik.q]
    | transportError => simp [Rubrik.q]
  · intro s b hs
    simp [Rubrik.q, hs]

/-- Witness for C6: an HTTP 404 response yields `None`. -/
theorem C6_query_executor_total_witness :
    Rubrik.q (HttpOutcome.response 404 none) = none :=
  C6_query_executor_total.2.1 404 none (by decide)

/-- C9: a fileset result built from an entry the indexer produced always
reports the SLA name recorded at indexing time — the entry's `sla` key is
always present, so `fs.get("sla", sla_name)` never falls back to the
snapshot's own SLA name, and the result is independent of the snapshot
response. -/
theorem C9_sla_domain_from_index (fs_name cluster : String)
    (child : FilesetChild) (ty : String)
    (snaps snaps2 : Option SnapPayload) (now now2 : PyDateTime) :
    (filesetResultFor (mkFilesetEntry fs_name cluster child ty) snaps now).sla_domain
      = (child.effectiveSlaDomain.getD ⟨none⟩).name.getD "N/A" ∧
    (filesetResultFor (mkFilesetEntry fs_name cluster child ty) snaps now).sla_domain
      = (filesetResultFor (mkFilesetEntry fs_name cluster child ty) snaps2 now2).sla_domain := by
  have key : ∀ (sn : Option SnapPayload) (t : PyDateTime),
      (filesetResultFor (mkFilesetEntry fs_name cluster child ty) sn t).sla_domain
        = (child.effectiveSlaDomain.getD ⟨none⟩).name.getD "N/A" := by
    intro sn t
    unfold filesetResultFor mkFilesetEntry
    split <;> rfl
  exact ⟨key snaps now, (key snaps now).trans (key snaps2 now2).symm⟩

/-- C8: for every list of result records, `summarize` reports
`success + failed = total`, with `total` the number of records, `success`
the number whose status is `"YES"`, and `failed` exactly the remaining
records. -/
theorem C8_summary_totals {α : Type} (statusOf : α → String)
    (results : List α) :
    (summarize statusOf results).2.1 + (summarize statusOf results).2.2
        = (summarize statusOf results).1 ∧
    (summarize statusOf results).1 = results.length ∧
    (summarize statusOf results).2.1
        = (results.filter (fun entry => statusOf entry = "YES")).length ∧
    (summarize statusOf results).2.2
        = (results.filter (fun entry => ¬ statusOf entry = "YES")).length := by
  have hsplit := List.length_eq_length_filter_add
    (l := results) (fun entry => decide (statusOf entry = "YES"))
  have hle := List.length_filter_le
    (fun entry => decide (statusOf entry = "YES")) results
  have hneg : (results.filter fun x =>
        !decide (statusOf x = "YES")).length
      = (results.filter (fun entry => ¬ statusOf entry = "YES")).length := by
    congr 1
    apply List.filter_congr
    intro x _
    simp [decide_not]
  refine ⟨?_, rfl, rfl, ?_⟩
  · simp only [summarize]
    omega
  · simp only [summarize]
    rw [← hneg]
    omega

/-- C10: every entry the server-list loader returns is non-empty, free of
leading/trailing whitespace (stripping it is the identity) and fully
lowercased (lowering it is the identity); blank or whitespace-only lines
contribute no entry, so the matcher is never handed the empty name. -/
theorem C10_server_list_entries (fsys : FileSys) (path : Option String)
    (label : String) (out : List String)
    (h : load_server_list fsys path label = Except.ok out) :
    (∀ entry ∈ out,
      entry ≠ "" ∧ pyStrip entry = entry ∧ pyLower entry = entry) ∧
    (∃ p lines, path = some p ∧ fsys.lookup p = some lines ∧
      out = processServerLines lines ∧
      out.length = (lines.filter (fun line => pyStrip line ≠ "")).length) := by
  rcases path with _ | p
  · simp [load_server_list, pyTruthyOptStr] at h
  · by_cases hp : p = ""
    · simp [load_server_list, pyTruthyOptStr, hp] at h
    · have hb : pyTruthyOptStr (some p) = true := by
        simp [pyTruthyOptStr, hp]
      rcases hlk : fsys.lookup p with _ | lines
      · simp [load_server_list, hb, hlk] at h
      · simp only [load_server_list, hb, hlk, not_true, if_false,
          Bool.not_eq_true] at h
        rw [Except.ok.injEq] at h
        constructor
        · intro entry hmem
          rw [← h] at hmem
          unfold processServerLines at hmem
          rw [List.mem_map] at hmem
          obtain ⟨line, hline, hentry⟩ := hmem
          rw [List.mem_filter] at hline
          have hne : pyStrip line ≠ "" := by
            have := hline.2
            simpa using this
          refine ⟨?_, ?_, ?_⟩
          · rw [← hentry]
            exact pyLower_ne_empty hne
          · rw [← hentry]
            exact pyStrip_pyLower_pyStrip line
          · rw [← hentry]
            exact pyLower_idem (pyStrip line)
        · refine ⟨p, lines, rfl, hlk, h.symm, ?_⟩
          rw [← h]
          unfold processServerLines
          rw [List.length_map]

theorem pyOrDefault_ne_empty (o : Option String) {dflt : String}
    (h : dflt ≠ "") : pyOrDefault o dflt ≠ "" := by
  rcases o with _ | s
  · exact h
  · show (if s = "" then dflt else s) ≠ ""
    by_cases hs : s = ""
    · rw [if_pos hs]
      exact h
    · rw [if_neg hs]
      exact hs

theorem resolvedSharedPath_ne_empty (env : Env) :
    resolvedSharedPath env ≠ "" :=
  pyOrDefault_ne_empty _ (by decide)

theorem bind_error_eq {α β : Type} (x : Except String α)
    (f : α → Except String β) (e : String) (h : x = Except.error e) :
    x.bind f = Except.error e := by
  rw [h]
  rfl

theorem bind_error_of_all {α β : Type} (x : Except String α)
    (f : α → Except String β)
    (hf : ∀ a, ∃ msg, f a = Except.error msg) :
    ∃ msg, x.bind f = Except.error msg := by
  cases x with
  | error e => exact ⟨e, rfl⟩
  | ok a => exact hf a

/-- C7: a falsy OAuth client id or client secret, or a shared server-list
path that does not exist on the modelled file system, makes the start-up
phase of `main` abort with a `SystemExit` (modelled as `Except.error`,
whose process exit status is 1 ≠ 0) before any per-server processing,
which only ever consumes the `.ok` payload. -/
theorem C7_startup_abort (env : Env) (fsys : FileSys) (authOk : Bool)
    (h : pyTruthyOptStr env.RUBRIK_CLIENT_ID = false ∨
         pyTruthyOptStr env.RUBRIK_CLIENT_SECRET = false ∨
         fsys.lookup (resolvedSharedPath env) = none) :
    (∃ msg, mainLoadAndAuth env fsys authOk = Except.error msg) ∧
    exitCodeOf (mainLoadAndAuth env fsys authOk) ≠ 0 ∧
    (∀ label, ∃ msg2, load_server_list fsys none label = Except.error msg2) := by
  have hmain : ∃ msg, mainLoadAndAuth env fsys authOk = Except.error msg := by
    have hcred : pyTruthyOptStr env.RUBRIK_CLIENT_ID = false ∨
        pyTruthyOptStr env.RUBRIK_CLIENT_SECRET = false →
        ∃ msg, mainLoadAndAuth env fsys authOk = Except.error msg := by
      intro hc
      have hr : rubrikInit env.RUBRIK_CLIENT_ID env.RUBRIK_CLIENT_SECRET authOk
          = Except.error "RUBRIK_CLIENT_ID and RUBRIK_CLIENT_SECRET must be set." := by
        unfold rubrikInit
        rw [if_pos]
        rcases hc with hc | hc
        · exact Or.inl (by rw [hc]; exact Bool.false_ne_true)
        · exact Or.inr (by rw [hc]; exact Bool.false_ne_true)
      unfold mainLoadAndAuth
      apply bind_error_of_all
      intro sl
      apply bind_error_of_all
      intro fl
      apply bind_error_of_all
      intro vl
      rw [hr]
      exact ⟨_, rfl⟩
    rcases h with hc | hc | hlk
    · exact hcred (Or.inl hc)
    · exact hcred (Or.inr hc)
    · have hb : pyTruthyOptStr (some (resolvedSharedPath env)) = true := by
        simp [pyTruthyOptStr, resolvedSharedPath_ne_empty env]
      have hload : load_server_list fsys (some (resolvedSharedPath env))
          "shared server list"
          = Except.error
              ("[ERROR] shared server list not found: " ++ resolvedSharedPath env) := by
        simp [load_server_list, hb, hlk]
      refine ⟨"[ERROR] shared server list not found: "
        ++ resolvedSharedPath env, ?_⟩
      exact bind_error_eq _ _ _ hload
  obtain ⟨msg, hm⟩ := hmain
  refine ⟨⟨msg, hm⟩, ?_, ?_⟩
  · rw [hm]
    simp [exitCodeOf]
  · intro label
    exact ⟨_, rfl⟩

/-- Witness for C7: absent credentials and an empty file system abort the
run with a non-zero exit status. -/
theorem C7_startup_abort_witness :
    (∃ msg, mainLoadAndAuth ⟨none, none, none, none, none, none⟩ [] true
        = Except.error msg) ∧
    exitCodeOf (mainLoadAndAuth ⟨none, none, none, none, none, none⟩ [] true) ≠ 0 ∧
    (∀ label, ∃ msg2,
      load_server_list [] none label = Except.error msg2) :=
  C7_startup_abort ⟨none, none, none, none, none, none⟩ [] true (Or.inl (by rfl))

/-- C3: the matcher accepts exactly when the lowercased requested name
occurs as a contiguous substring of the entry's stored `server` field or
of its `path` field; it is case-insensitive in the requested name and is
containment, not equality — `"Host1"` matches an entry whose server field
is `"host123.domain.com"` even though the strings differ. -/
theorem C3_matcher_substring :
    (∀ (server : String) (fs : FilesetEntry),
      fuzzy_match server fs = true ↔
        ((∃ pre suf, fs.server.toList = pre ++ (pyLower server).toList ++ suf) ∨
         (∃ pre suf, fs.path.toList = pre ++ (pyLower server).toList ++ suf))) ∧
    fuzzy_match "Host1"
      { snappable_id := some "id", server := "host123.domain.com"
        fileset := "fs", cluster := "cl", sla := some "Gold"
        path := "n/a", type := "WINDOWS_FILESET"
        requested_server := none } = true ∧
    ("host1" : String) ≠ "host123.domain.com" := by
  refine ⟨?_, by decide, by decide⟩
  intro server fs
  unfold fuzzy_match
  simp only [Bool.or_eq_true]
  rw [pyIn_iff, pyIn_iff]

/-- Witness for C10: a one-file file system whose server list holds a
padded mixed-case line, a blank line, a whitespace-only line and a plain
line loads as two cleaned entries. -/
theorem C10_server_list_entries_witness :
    (∀ entry ∈ ["hosta.example", "hostb"],
      entry ≠ "" ∧ pyStrip entry = entry ∧ pyLower entry = entry) ∧
    (∃ p lines, (some "L2Backup/serverslist5" : Option String) = some p ∧
      List.lookup p
          [("L2Backup/serverslist5",
            ["  HostA.example \n", "", "   ", "hostb\n"])] = some lines ∧
      ["hosta.example", "hostb"] = processServerLines lines ∧
      (["hosta.example", "hostb"] : List String).length
        = (lines.filter (fun line => pyStrip line ≠ "")).length) :=
  C10_server_list_entries
    [("L2Backup/serverslist5", ["  HostA.example \n", "", "   ", "hostb\n"])]
    (some "L2Backup/serverslist5") "shared server list"
    ["hosta.example", "hostb"] (by rfl)

end RubrikCheck
